import Mathlib

/-!
Verification of the y-sweet server CLI front end
(`crates/y-sweet-server/src/main.rs`) against its natural-language
specification.

The file shallowly embeds the CLI glue code: the `Serve`, `Dump` and
`GenAuth` subcommand arms of `main`, and the helper
`get_store_from_opts`.  External collaborators that are not part of the
repository under review (the `url` crate, the `s3`/filesystem store
constructors, `Authenticator`, `SyncKv`/`load_doc`, `Server::new`,
`server.serve`) are represented either by abstract fallible functions
collected in an `Externals` record (so theorems quantify over every
possible behaviour of the missing code), or, where the specification
pins down their shape, by definitions marked `Modelled from the spec`.

The checkpoint/load logic of the persistence engine (spec section 4.2) has no
code under the sources provided, so it is modelled from the
specification text and verified as such.
-/

namespace YSweet

/-- Model of `s3::Region`.  `main.rs` only ever names `Region::UsEast1`,
but the type has further inhabitants, which we keep abstract. -/
inductive Region where
  | usEast1 : Region
  | other : String → Region
deriving DecidableEq

/-- Model of `std::net::IpAddr`: a v4 quad or an opaque v6 address. -/
inductive IpAddr where
  | v4 : Nat → Nat → Nat → Nat → IpAddr
  | v6 : String → IpAddr
deriving DecidableEq

/-- Model of `std::net::SocketAddr` as constructed by `SocketAddr::new`. -/
structure SocketAddr where
  ip : IpAddr
  port : Nat
deriving DecidableEq

/-- The store value produced by `get_store_from_opts`: a closed set of
two concrete variants (`S3Store` or `FileSystemStore`), mirroring the
two branches of the function. -/
inductive Store where
  | s3 : Region → (bucket : String) → (keyPathBase : String) → Store
  | fileSystem : (path : String) → Store
deriving DecidableEq

/-- The result of `url::Url::parse` restricted to the fields `main.rs`
reads: `scheme()`, `host_str()` and `path()`.  The parser itself is an
external collaborator, so functions below take it as a parameter. -/
structure Url where
  scheme : String
  host : Option String
  path : String
deriving DecidableEq

/-- Model of Rust `str::starts_with` on string patterns: the
characters of the pattern are a prefix of those of the string.  (Defined on the character
lists so that it evaluates by kernel reduction.) -/
def strStartsWith (s pre : String) : Bool :=
  pre.toList.isPrefixOf s.toList

/-- Model of Rust `str::trim_start_matches('/')`: drop every leading
slash character. -/
def trimStartSlashes (s : String) : String :=
  String.mk (s.toList.dropWhile (fun c => c = '/'))

/-- Modelled from the spec: `S3Store::new(region, bucket, prefix)` from
the missing `stores::blobstore` module.  The constructor records exactly
the configuration `main.rs` hands it; environment-dependent failures
(credentials) are outside the shallow embedding, and the URL validation
that the spec calls a fatal configuration error happens in
`get_store_from_opts` itself before this call. -/
def S3Store.new (region : Region) (bucket : String) (keyPathBase : String) :
    Except String Store :=
  Except.ok (Store.s3 region bucket keyPathBase)

/-- Modelled from the spec: `FileSystemStore::new(PathBuf::from(store_path))`
from the missing `stores::filesystem` module — a store rooted at the
given path.  Any location string is a structurally valid filesystem
path; I/O failures are outside the shallow embedding. -/
def FileSystemStore.new (path : String) : Except String Store :=
  Except.ok (Store.fileSystem path)

/-- Embedding of `get_store_from_opts` (main.rs lines 62-81),
parameterised by the external URL parser.  If the location starts with
`s3://` it is parsed as a URL, the scheme is checked, the host becomes
the bucket and the path with leading slashes stripped becomes the key
prefix, with the region fixed to `UsEast1`; otherwise a filesystem store
rooted at the location is produced. -/
def get_store_from_opts (urlParse : String → Except String Url)
    (store_path : String) : Except String Store :=
  if strStartsWith store_path ("s3://") then
    let region := Region.usEast1
    match urlParse store_path with
    | Except.error e => Except.error e
    | Except.ok url =>
      if url.scheme ≠ ("s3") then
        Except.error ("Invalid S3 URL")
      else
        match url.host with
        | none => Except.error ("Invalid S3 URL")
        | some bucket => S3Store.new region bucket (trimStartSlashes url.path)
  else
    FileSystemStore.new store_path

/-- Whether a `get_store_from_opts` result is a successfully constructed
S3-backed store. -/
def isS3Result : Except String Store → Bool
  | Except.ok (Store.s3 _ _ _) => true
  | _ => false

/-- Model of `std::time::Duration` restricted to whole seconds, the only
constructor `main.rs` uses (`Duration::from_secs`). -/
structure Duration where
  secs : Nat
deriving DecidableEq

/-- Model of `Duration::from_secs`. -/
def Duration.from_secs (n : Nat) : Duration := ⟨n⟩

/-- Model of the `Authenticator` value produced by `Authenticator::new`
or `Authenticator::gen_key` in the missing `y-sweet-server-core` crate,
restricted to the two accessors `main.rs` reads. -/
structure Authenticator where
  privateKey : String
  serverToken : String
deriving DecidableEq

/-- Opaque model of a `SyncKv` value; `main.rs` only threads it from
`SyncKv::new` into `load_doc`. -/
structure SyncKv where
  tag : Nat
deriving DecidableEq

/-- Model of a `yrs` transaction over a `Doc`, restricted to an opaque
content field: `main.rs` creates one from a fresh `Doc`, has `load_doc`
fill it, and hands it to `dump`. -/
structure YTxn where
  content : List Nat
deriving DecidableEq

/-- Model of `Doc::new()` followed by `transact_mut()`: a transaction
over a freshly constructed, empty document. -/
def Doc.newTxn : YTxn := ⟨[]⟩

/-- Modelled from the spec: the constant `DOC_NAME` exported by the
missing `y_sweet_server_core::doc_connection` module — the fixed name of
the root document inside a `SyncKv`.  The claims never depend on its
exact value. -/
def DOC_NAME : String := "doc"

/-- The argument tuple of the `server::Server::new` call (main.rs lines
118-124): the store, the checkpoint interval, the optional
authenticator, and the https flag.  `Server::new` itself is missing
code, so the embedding records exactly what `main` passes it. -/
structure ServerArgs where
  store : Store
  checkpointFreq : Duration
  auth : Option Authenticator
  useHttps : Bool
deriving DecidableEq

/-- Field names of the `Serve` subcommand record (main.rs lines 34-49),
in source order: the complete set of operational parameters the command
line accepts for `Serve`. -/
def serveFieldNames : List String :=
  [("store_path"), ("port"), ("host"), ("checkpoint_freq_seconds"),
   ("auth"), ("use_https")]

/-- The `Serve` options after `clap` parsing: `port` and
`checkpoint_freq_seconds` always carry a value (they have defaults),
`host` and `auth` stay optional. -/
structure ServeOpts where
  store_path : String
  port : Nat
  host : Option IpAddr
  checkpoint_freq_seconds : Nat
  auth : Option String
  use_https : Bool
deriving DecidableEq

/-- The `Serve` options as given on the command line, before defaults
are applied: a missing `--port` or `--checkpoint-freq-seconds` is
`none`. -/
structure RawServeOpts where
  store_path : String
  port : Option Nat
  host : Option IpAddr
  checkpoint_freq_seconds : Option Nat
  auth : Option String
  use_https : Bool
deriving DecidableEq

/-- Model of the `clap` default handling for `Serve` (main.rs lines
37-42): `--port` defaults to 8080 and `--checkpoint-freq-seconds` to 10;
`--host` and `--auth` have no default. -/
def resolveServeOpts (r : RawServeOpts) : ServeOpts :=
  { store_path := r.store_path
    port := r.port.getD 8080
    host := r.host
    checkpoint_freq_seconds := r.checkpoint_freq_seconds.getD 10
    auth := r.auth
    use_https := r.use_https }

/-- Model of the `Dump` subcommand options. -/
structure DumpOpts where
  store_path : String
  doc_id : String
deriving DecidableEq

/-- Observable actions of a `main` invocation, in program order: the
`tracing::warn!` for missing auth, the `tracing::info!` listening line,
the construction of the `Server` (with the exact arguments passed), the
`server.serve(&addr)` call, the `SyncKv` construction and `load_doc`
call of the dump path, the `dump` rendering call, and the `println!`
output of `GenAuth`. -/
inductive Event where
  | warnNoAuth : Event
  | listening : String → Event
  | serverConstructed : ServerArgs → Event
  | served : SocketAddr → Event
  | syncKvConstructed : Store → String → Event
  | docLoaded : YTxn → Event
  | dumped : YTxn → Event
  | printedJson : List (String × String) → Event
  | printedLines : List String → Event
deriving DecidableEq

/-- Render an `IpAddr` the way the Rust `Display` trait does, for the
`format!("http://{}:{}", ...)` line. -/
def IpAddr.render : IpAddr → String
  | IpAddr.v4 a b c d =>
      toString a ++ (".") ++ toString b ++ (".") ++ toString c ++ (".") ++ toString d
  | IpAddr.v6 s => s

/-- The external collaborators `main` calls into, none of which are code
under the sources provided: the `url` crate parser, the core crate
`Authenticator` constructors, `Server::new` and `server.serve`, and the
dump-path `SyncKv::new`, `load_doc` and `dump`.  Theorems quantify
over every behaviour of this record unless a claim pins one down. -/
structure Externals where
  urlParse : String → Except String Url
  authNew : String → Except String Authenticator
  genKey : Except String Authenticator
  serverNew : ServerArgs → Except String Unit
  serveCall : ServerArgs → SocketAddr → Except String Unit
  syncKvNew : Store → String → Except String SyncKv
  loadDoc : SyncKv → String → YTxn → Except String YTxn
  dumpTxn : YTxn → Except String Unit

/-- Embedding of the `Serve` arm of `main` (main.rs lines 96-130).  The
result pairs the `Result` of `main` with the trace of observable events, in
order: build the authenticator (warning and `None` when `--auth` is
absent, `?`-propagation of `Authenticator::new` failure otherwise),
compute the socket address from `--host`/`--port`, build the store
(`?`-propagation), construct the `Server`, log the listening line, and
serve. -/
def mainServe (ext : Externals) (o : ServeOpts) :
    Except String Unit × List Event :=
  let authStep : Except String (Option Authenticator) × List Event :=
    match o.auth with
    | some key =>
      (match ext.authNew key with
       | Except.error e => (Except.error e, [])
       | Except.ok a => (Except.ok (some a), []))
    | none => (Except.ok none, [Event.warnNoAuth])
  match authStep with
  | (Except.error e, evs) => (Except.error e, evs)
  | (Except.ok auth, evs) =>
    let addr : SocketAddr :=
      ⟨o.host.getD (IpAddr.v4 127 0 0 1), o.port⟩
    match get_store_from_opts ext.urlParse o.store_path with
    | Except.error e => (Except.error e, evs)
    | Except.ok store =>
      let args : ServerArgs :=
        ⟨store, Duration.from_secs o.checkpoint_freq_seconds, auth, o.use_https⟩
      match ext.serverNew args with
      | Except.error e => (Except.error e, evs)
      | Except.ok _ =>
        let address :=
          ("http://") ++ addr.ip.render ++ (":") ++ toString addr.port
        (ext.serveCall args addr,
         evs ++ [Event.serverConstructed args, Event.listening address,
                 Event.served addr])

/-- Embedding of the `Dump` arm of `main` (main.rs lines 131-142): build
the store, construct a `SyncKv` over it for the requested document id,
replay its contents through `load_doc` into a transaction over a freshly
constructed `Doc`, mapping a load failure to an `Error loading doc`
error, and render the transaction with `dump`. -/
def mainDump (ext : Externals) (o : DumpOpts) :
    Except String Unit × List Event :=
  match get_store_from_opts ext.urlParse o.store_path with
  | Except.error e => (Except.error e, [])
  | Except.ok store =>
    match ext.syncKvNew store o.doc_id with
    | Except.error e => (Except.error e, [])
    | Except.ok kv =>
      let evs := [Event.syncKvConstructed store o.doc_id]
      match ext.loadDoc kv DOC_NAME Doc.newTxn with
      | Except.error e => (Except.error (("Error loading doc: ") ++ e), evs)
      | Except.ok txn =>
        (ext.dumpTxn txn, evs ++ [Event.docLoaded txn, Event.dumped txn])

/-- The JSON object printed by `GenAuth --json` (main.rs lines 147-152):
exactly the fields `private_key` and `server_token`. -/
def genAuthJsonFields (a : Authenticator) : List (String × String) :=
  [(("private_key"), a.privateKey), (("server_token"), a.serverToken)]

/-- The human-readable lines printed by `GenAuth` without `--json`
(main.rs lines 154-173), as a template over the private key and the
server token — the only data interpolated into the output.  Literal
braces of the source are written escaped. -/
def genAuthTextTemplate (pk st : String) : List String :=
  [("Run y-sweet-server with the following option to require authentication:"),
   (""),
   (("   --auth ") ++ pk),
   (""),
   ("Then, when interacting with y-sweet-server from your own server, pass the following server token:"),
   (""),
   (("   ") ++ st),
   (""),
   ("For example:"),
   (""),
   ("    // The token is hard-coded for simplicity of the example. Use a secret manager in production!"),
   (("    const params = \x7b\"url\": \"http://127.0.0.1:8080\", \"token\": \"") ++ st ++ ("\"\x7d)")),
   ("    const docInfo = createDoc(params)"),
   ("    const connectionKey = getClientToken(docInfo, \x7b\x7d, params)"),
   (""),
   ("Only use the server token on the server, do not expose the server token to clients."),
   ("getConnectionKey() will return a derived token that clients can use to scoped to a specific document.")]

/-- Embedding of the `GenAuth` arm of `main` (main.rs lines 143-175):
generate a key (`?`-propagation) and print either the JSON object or the
human-readable instructions. -/
def mainGenAuth (ext : Externals) (json : Bool) :
    Except String Unit × List Event :=
  match ext.genKey with
  | Except.error e => (Except.error e, [])
  | Except.ok a =>
    if json then
      (Except.ok (), [Event.printedJson (genAuthJsonFields a)])
    else
      (Except.ok (), [Event.printedLines (genAuthTextTemplate a.privateKey a.serverToken)])

/-! ### Persistence engine: checkpoint and load

The persistence engine (`y-sweet-server-core`) is not among the sources
provided; everything in this section is modelled from spec sections 3,
4.2 and 8.  The CRDT state is modelled as a finite set of opaque update
payloads: merging an update inserts its payload, which is commutative
and idempotent exactly as the spec requires of the CRDT, so replaying an
already-incorporated update is a no-op. -/

/-- Modelled from the spec: a `Snapshot` — a full serialization of the
document state tagged with the sequence number of the last update it
incorporates (its baseline). -/
structure Snapshot where
  baseline : Nat
  data : Finset Nat
deriving DecidableEq

/-- Modelled from the spec: the durable per-document contents of the
`Store` — an optional latest snapshot and the update log, each entry an
`UpdateRecord` tagged with its sequence number. -/
structure StoreState where
  snapshot : Option Snapshot
  updates : List (Nat × Nat)
deriving DecidableEq

/-- Modelled from the spec: the `ResidentDocument` fields the
checkpoint/load lifecycle touches — the live CRDT state, the highest
sequence number assigned so far, and the dirty flag. -/
structure DocState where
  crdt : Finset Nat
  seq : Nat
  dirty : Bool
deriving DecidableEq

/-- Replay a list of update records into a CRDT state: merge each
payload in turn (insertion — commutative and idempotent). -/
def replay (base : Finset Nat) (us : List (Nat × Nat)) : Finset Nat :=
  us.foldl (fun s u => insert u.2 s) base

/-- Modelled from the spec: the reconstruction done by `load` of document state
from the store — the latest snapshot (or an empty fresh document), plus
every update record with sequence number greater than the snapshot
baseline. -/
def loadState (st : StoreState) : Finset Nat :=
  match st.snapshot with
  | none => replay ∅ st.updates
  | some sn => replay sn.data (st.updates.filter (fun u => sn.baseline < u.1))

/-- Modelled from the spec: `applyUpdate` — merge the payload into the
live state, append an update record with the next sequence number to the
durable log, and mark the document dirty. -/
def applyUpdate (d : DocState) (st : StoreState) (payload : Nat) :
    DocState × StoreState :=
  let s := d.seq + 1
  (⟨insert payload d.crdt, s, true⟩, ⟨st.snapshot, st.updates ++ [(s, payload)]⟩)

/-- Modelled from the spec: `checkpoint` — a no-op on a clean document;
on a dirty one, serialize the current state to a snapshot with baseline
equal to the current highest sequence number and write it to the store;
only upon confirmed write (`writeOk = true`) delete the update records
with sequence number at most the new baseline and clear the dirty flag.
A failed store write (`writeOk = false`) aborts the attempt: nothing is
deleted and the document stays dirty. -/
def checkpoint (writeOk : Bool) (d : DocState) (st : StoreState) :
    DocState × StoreState :=
  if d.dirty = false then (d, st)
  else if writeOk = false then (d, st)
  else
    (⟨d.crdt, d.seq, false⟩,
     ⟨some ⟨d.seq, d.crdt⟩, st.updates.filter (fun u => d.seq < u.1)⟩)

/-! ### Concrete sample externals, for witnesses and counterexamples -/

/-- A concrete URL-parse oracle agreeing with the `url` crate on the
inputs the witnesses use: `s3://mybucket/some/base` parses with scheme
`s3`, host `mybucket` and path `/some/base`; `s3://exa mple/p` is
rejected because a space is a forbidden host code point. -/
def urlParseSample (s : String) : Except String Url :=
  if s = ("s3://mybucket/some/base") then
    Except.ok ⟨("s3"), some ("mybucket"), ("/some/base")⟩
  else if s = ("s3://exa mple/p") then
    Except.error ("invalid international domain name")
  else
    Except.error ("unmodelled input")

/-- A fixed sample authenticator value. -/
def sampleAuth : Authenticator := ⟨("sample-private-key"), ("sample-server-token")⟩

/-- Externals in which every external call succeeds. -/
def extOk : Externals :=
  { urlParse := urlParseSample
    authNew := fun _ => Except.ok sampleAuth
    genKey := Except.ok sampleAuth
    serverNew := fun _ => Except.ok ()
    serveCall := fun _ _ => Except.ok ()
    syncKvNew := fun _ _ => Except.ok ⟨0⟩
    loadDoc := fun _ _ t => Except.ok t
    dumpTxn := fun _ => Except.ok () }

/-- Externals in which `Authenticator::new` rejects the key material. -/
def extAuthFail : Externals :=
  { extOk with authNew := fun _ => Except.error ("invalid key material") }

/-- Externals in which `load_doc` fails to decode the persisted state. -/
def extLoadFail : Externals :=
  { extOk with loadDoc := fun _ _ _ => Except.error ("corrupt update record") }

/-- Whether the text `needle` occurs as a contiguous substring of
`hay`, computed on the underlying character lists. -/
def containsSub (hay needle : String) : Bool :=
  hay.toList.tails.any (fun t => needle.toList.isPrefixOf t)

/-- A Serve command-line field is checkpoint-interval-related if its
name mentions `checkpoint`. -/
def fieldMentionsCheckpoint (n : String) : Bool :=
  containsSub n ("checkpoint")

/-- A Serve command-line field is authorization-related if its name
mentions `auth`. -/
def fieldMentionsAuth (n : String) : Bool :=
  containsSub n ("auth")

/-- A Serve command-line field is idle-eviction-related if its name
mentions `idle` or `evict`. -/
def fieldMentionsEviction (n : String) : Bool :=
  containsSub n ("idle") || containsSub n ("evict")

/-- Claim C4 as stated: each of the three operational parameters the
spec lists — checkpoint interval, idle-eviction threshold,
authorization — is accepted by the `Serve` command line, and the
checkpoint interval and authenticator are passed into `Server::new`. -/
def C4Claim : Prop :=
  ((∃ n ∈ serveFieldNames, fieldMentionsCheckpoint n = true) ∧
   (∃ n ∈ serveFieldNames, fieldMentionsEviction n = true) ∧
   (∃ n ∈ serveFieldNames, fieldMentionsAuth n = true)) ∧
  (∀ ext o args, Event.serverConstructed args ∈ (mainServe ext o).2 →
    args.checkpointFreq = Duration.from_secs o.checkpoint_freq_seconds ∧
    (o.auth = none → args.auth = none))

/-- Claim C2 as stated: `get_store_from_opts` returns an S3-backed store
exactly when the location starts with `s3://`, for every behaviour of
the URL parser. -/
def C2Claim : Prop :=
  ∀ (urlParse : String → Except String Url) (store_path : String),
    isS3Result (get_store_from_opts urlParse store_path) =
      strStartsWith store_path ("s3://")

/-! ## Theorems -/

set_option maxHeartbeats 1000000 in
/-- Helper: if the trace of a `Serve` invocation records a `Server`
construction, then the arguments are exactly the successfully built
store, the checkpoint duration from the command line, the authenticator
derived from `--auth` (none plus nothing else when the flag is absent),
and the https flag. -/
theorem mainServe_serverConstructed_inv (ext : Externals) (o : ServeOpts)
    (args : ServerArgs)
    (h : Event.serverConstructed args ∈ (mainServe ext o).2) :
    get_store_from_opts ext.urlParse o.store_path = Except.ok args.store ∧
    args.checkpointFreq = Duration.from_secs o.checkpoint_freq_seconds ∧
    args.useHttps = o.use_https ∧
    ((o.auth = none ∧ args.auth = none) ∨
     (∃ k a, o.auth = some k ∧ ext.authNew k = Except.ok a ∧
       args.auth = some a)) := by
  cases ho : o.auth with
  | none =>
    cases hs : get_store_from_opts ext.urlParse o.store_path with
    | error e =>
      simp only [mainServe, ho, hs] at h
      simp at h
    | ok store =>
      cases hn : ext.serverNew ⟨store, Duration.from_secs o.checkpoint_freq_seconds,
          none, o.use_https⟩ with
      | error e =>
        simp only [mainServe, ho, hs, hn] at h
        simp at h
      | ok u =>
        simp only [mainServe, ho, hs, hn] at h
        simp at h
        subst h
        exact ⟨rfl, rfl, rfl, Or.inl ⟨rfl, rfl⟩⟩
  | some k =>
    cases ha : ext.authNew k with
    | error e =>
      simp only [mainServe, ho, ha] at h
      simp at h
    | ok a =>
      cases hs : get_store_from_opts ext.urlParse o.store_path with
      | error e =>
        simp only [mainServe, ho, ha, hs] at h
        simp at h
      | ok store =>
        cases hn : ext.serverNew ⟨store, Duration.from_secs o.checkpoint_freq_seconds,
            some a, o.use_https⟩ with
        | error e =>
          simp only [mainServe, ho, ha, hs, hn] at h
          simp at h
        | ok u =>
          simp only [mainServe, ho, ha, hs, hn] at h
          simp at h
          subst h
          exact ⟨rfl, rfl, rfl, Or.inr ⟨k, a, rfl, ha, rfl⟩⟩

/-- C1: for every `Serve` invocation, if building the `Authenticator`
from the `--auth` key fails, or building the store from `store_path`
fails, then `main` returns that error and the trace shows neither a
`Server` construction nor a bound/served address — startup aborts
before any traffic is served. -/
theorem serve_aborts_on_config_error (ext : Externals) (o : ServeOpts)
    (h : (∃ k e, o.auth = some k ∧ ext.authNew k = Except.error e) ∨
         (∃ e, get_store_from_opts ext.urlParse o.store_path =
           Except.error e)) :
    (∃ e, (mainServe ext o).1 = Except.error e) ∧
    (∀ args, Event.serverConstructed args ∉ (mainServe ext o).2) ∧
    (∀ a, Event.served a ∉ (mainServe ext o).2) := by
  rcases h with ⟨k, e, hk, he⟩ | ⟨e, he⟩
  · simp [mainServe, hk, he]
  · cases ho : o.auth with
    | none => simp [mainServe, ho, he]
    | some k =>
      cases ha : ext.authNew k with
      | error e2 => simp [mainServe, ho, ha]
      | ok a => simp [mainServe, ho, ha, he]

/-- C1 witness: with key material the authenticator rejects, the `Serve`
invocation returns the error and constructs no server. -/
theorem serve_aborts_on_config_error_witness :
    (mainServe extAuthFail
      ⟨("data"), 8080, none, 10, some ("bad-key"), false⟩).1 =
        Except.error ("invalid key material") ∧
    Event.serverConstructed ⟨Store.fileSystem ("data"), Duration.from_secs 10,
        some sampleAuth, false⟩ ∉
      (mainServe extAuthFail
        ⟨("data"), 8080, none, 10, some ("bad-key"), false⟩).2 :=
  ⟨rfl,
   (serve_aborts_on_config_error extAuthFail
      ⟨("data"), 8080, none, 10, some ("bad-key"), false⟩
      (Or.inl ⟨("bad-key"), ("invalid key material"), rfl, rfl⟩)).2.1 _⟩

/-- C2 counterexample: the biconditional fails left-to-right.  The
location `s3://exa mple/p` starts with `s3://`, but the `url` crate
rejects it (a space is a forbidden host code point), so
`get_store_from_opts` returns an error rather than an S3-backed
store. -/
theorem store_variant_iff_s3_counterexample : ¬ C2Claim :=
  fun h => absurd (h urlParseSample ("s3://exa mple/p")) (by decide)

/-- C2 amended: the backend variant is decided by the `s3://` test on
the location string alone — a location not starting with `s3://` always
yields the filesystem store rooted at that path, an S3-backed store is
returned only for locations starting with `s3://`, and a location
starting with `s3://` yields either an S3-backed store or an error
(for a malformed locator), never a filesystem store. -/
theorem store_variant_by_location (urlParse : String → Except String Url)
    (store_path : String) :
    (strStartsWith store_path ("s3://") = false →
      get_store_from_opts urlParse store_path =
        Except.ok (Store.fileSystem store_path)) ∧
    (isS3Result (get_store_from_opts urlParse store_path) = true →
      strStartsWith store_path ("s3://") = true) ∧
    (strStartsWith store_path ("s3://") = true →
      isS3Result (get_store_from_opts urlParse store_path) = true ∨
      ∃ e, get_store_from_opts urlParse store_path = Except.error e) := by
  cases hp : strStartsWith store_path ("s3://") with
  | false =>
    refine ⟨fun _ => ?_, fun hs => ?_, fun hc => by simp at hc⟩
    · simp [get_store_from_opts, hp, FileSystemStore.new]
    · simp [get_store_from_opts, hp, FileSystemStore.new, isS3Result] at hs
  | true =>
    refine ⟨fun hc => by simp at hc, fun _ => rfl, fun _ => ?_⟩
    cases hu : urlParse store_path with
    | error e => exact Or.inr ⟨e, by simp [get_store_from_opts, hp, hu]⟩
    | ok u =>
      by_cases hsch : u.scheme = ("s3")
      · cases hh : u.host with
        | none =>
          exact Or.inr ⟨("Invalid S3 URL"),
            by simp [get_store_from_opts, hp, hu, hsch, hh]⟩
        | some bucket =>
          exact Or.inl
            (by simp [get_store_from_opts, hp, hu, hsch, hh, S3Store.new, isS3Result])
      · exact Or.inr ⟨("Invalid S3 URL"),
          by simp [get_store_from_opts, hp, hu, hsch]⟩

/-- C2 witness: a plain directory location yields the filesystem store
rooted at it. -/
theorem store_variant_by_location_witness :
    get_store_from_opts urlParseSample ("local-data") =
      Except.ok (Store.fileSystem ("local-data")) :=
  (store_variant_by_location urlParseSample ("local-data")).1 (by decide)

/-- Helper: the no-auth warning is logged exactly when `--auth` was not
given. -/
theorem warnNoAuth_mem_iff (ext : Externals) (o : ServeOpts) :
    Event.warnNoAuth ∈ (mainServe ext o).2 ↔ o.auth = none := by
  cases ho : o.auth with
  | none =>
    simp only [iff_true]
    cases hs : get_store_from_opts ext.urlParse o.store_path with
    | error e =>
      simp only [mainServe, ho, hs]
      simp
    | ok store =>
      cases hn : ext.serverNew ⟨store, Duration.from_secs o.checkpoint_freq_seconds,
          none, o.use_https⟩ with
      | error e =>
        simp only [mainServe, ho, hs, hn]
        simp
      | ok u =>
        simp only [mainServe, ho, hs, hn]
        simp
  | some k =>
    simp only [reduceCtorEq, iff_false]
    cases ha : ext.authNew k with
    | error e =>
      simp only [mainServe, ho, ha]
      simp
    | ok a =>
      cases hs : get_store_from_opts ext.urlParse o.store_path with
      | error e =>
        simp only [mainServe, ho, ha, hs]
        simp
      | ok store =>
        cases hn : ext.serverNew ⟨store, Duration.from_secs o.checkpoint_freq_seconds,
            some a, o.use_https⟩ with
        | error e =>
          simp only [mainServe, ho, ha, hs, hn]
          simp
        | ok u =>
          simp only [mainServe, ho, ha, hs, hn]
          simp

/-- C5: without `--auth` the warning is logged and any server that gets
constructed carries no authenticator; with `--auth` no warning is logged
and any server that gets constructed carries exactly the authenticator
built from the given key.  (If the key material is invalid, startup
aborts before construction — see the C1 theorem.) -/
theorem no_auth_mode_distinguished (ext : Externals) (o : ServeOpts) :
    (o.auth = none →
      Event.warnNoAuth ∈ (mainServe ext o).2 ∧
      (∀ args, Event.serverConstructed args ∈ (mainServe ext o).2 →
        args.auth = none)) ∧
    (∀ k, o.auth = some k →
      Event.warnNoAuth ∉ (mainServe ext o).2 ∧
      (∀ args a, Event.serverConstructed args ∈ (mainServe ext o).2 →
        ext.authNew k = Except.ok a → args.auth = some a)) := by
  constructor
  · intro ho
    refine ⟨(warnNoAuth_mem_iff ext o).mpr ho, ?_⟩
    intro args hmem
    rcases (mainServe_serverConstructed_inv ext o args hmem).2.2.2 with
      ⟨_, hnone⟩ | ⟨k, a, hk, _, _⟩
    · exact hnone
    · rw [ho] at hk
      exact absurd hk (by simp)
  · intro k hk
    constructor
    · rw [warnNoAuth_mem_iff, hk]
      simp
    · intro args a hmem ha
      rcases (mainServe_serverConstructed_inv ext o args hmem).2.2.2 with
        ⟨hnone, _⟩ | ⟨k2, a2, hk2, ha2, hargs⟩
      · rw [hk] at hnone
        exact absurd hnone (by simp)
      · rw [hk] at hk2
        injection hk2 with hkk
        rw [← hkk] at ha2
        rw [ha] at ha2
        injection ha2 with haa
        rw [haa]
        exact hargs

/-- C5 witness: a `Serve` invocation without `--auth` logs the warning. -/
theorem no_auth_mode_distinguished_witness :
    Event.warnNoAuth ∈
      (mainServe extOk ⟨("data"), 8080, none, 10, none, false⟩).2 :=
  ((no_auth_mode_distinguished extOk
      ⟨("data"), 8080, none, 10, none, false⟩).1 rfl).1

/-- C4 counterexample: the `Serve` command line accepts no
idle-eviction parameter at all — no field of the `Serve` subcommand
mentions idleness or eviction — so the idle-eviction threshold the spec
lists is not consumed at construction. -/
theorem operational_params_counterexample : ¬ C4Claim :=
  fun h => absurd h.1.2.1 (by decide)

/-- C4 amended: the checkpoint interval and the authorization key are
accepted by the `Serve` command line and are passed into `Server::new`
(as the checkpoint duration and the optional authenticator); the
idle-eviction threshold is not a `Serve` parameter and is not among the
arguments of `Server::new`. -/
theorem operational_params_accepted :
    (∃ n ∈ serveFieldNames, fieldMentionsCheckpoint n = true) ∧
    (∃ n ∈ serveFieldNames, fieldMentionsAuth n = true) ∧
    (¬ ∃ n ∈ serveFieldNames, fieldMentionsEviction n = true) ∧
    (∀ ext o args, Event.serverConstructed args ∈ (mainServe ext o).2 →
      args.checkpointFreq = Duration.from_secs o.checkpoint_freq_seconds ∧
      (o.auth = none → args.auth = none) ∧
      (∀ k, o.auth = some k →
        ∃ a, ext.authNew k = Except.ok a ∧ args.auth = some a)) := by
  refine ⟨by decide, by decide, by decide, ?_⟩
  intro ext o args h
  obtain ⟨-, hcf, -, hauth⟩ := mainServe_serverConstructed_inv ext o args h
  refine ⟨hcf, ?_, ?_⟩
  · intro hnone
    rcases hauth with ⟨_, h2⟩ | ⟨k, a, hk, _, _⟩
    · exact h2
    · rw [hnone] at hk
      exact absurd hk (by simp)
  · intro k hk
    rcases hauth with ⟨h1, _⟩ | ⟨k2, a, hk2, ha2, hargs⟩
    · rw [hk] at h1
      exact absurd h1 (by simp)
    · rw [hk] at hk2
      injection hk2 with hkk
      rw [← hkk] at ha2
      exact ⟨a, ha2, hargs⟩

/-- C4 witness: in a run that constructs the server, the checkpoint
duration passed to `Server::new` is the one from the command line. -/
theorem operational_params_accepted_witness :
    (⟨Store.fileSystem ("data"), Duration.from_secs 15, some sampleAuth,
        false⟩ : ServerArgs).checkpointFreq = Duration.from_secs 15 :=
  (operational_params_accepted.2.2.2 extOk
    ⟨("data"), 8080, none, 15, some ("key"), false⟩
    ⟨Store.fileSystem ("data"), Duration.from_secs 15, some sampleAuth, false⟩
    (by decide)).1

/-- Helper: any replayed list of update records whose sequence numbers
are all at most the snapshot baseline is ignored by `load`, so the
reconstructed state is exactly the snapshot data. -/
theorem loadState_high_baseline (bl : Nat) (data : Finset Nat)
    (kept : List (Nat × Nat)) (hk : ∀ u ∈ kept, u.1 ≤ bl) :
    loadState ⟨some ⟨bl, data⟩, kept⟩ = data := by
  show replay data (kept.filter (fun u => bl < u.1)) = data
  have hnil : kept.filter (fun u => bl < u.1) = [] := by
    rw [List.filter_eq_nil_iff]
    intro u hu
    simpa using Nat.not_lt.mpr (hk u hu)
  rw [hnil]
  rfl

/-- C3: checkpointing a dirty document is crash-consistent.  Under the
documented invariant (the live state is what `load` reconstructs from
the store, and every logged sequence number is at most the
highest of the document), a failed snapshot write aborts the checkpoint with the store
untouched — no log entry deleted — and the document still dirty; a crash
before the snapshot write leaves `load` reconstructing the live state
from the old snapshot plus the full log; a crash after the snapshot
write with any subset of the log deletions completed (any sublist of the
log surviving) still lets `load` reconstruct the live state; and a
completed checkpoint clears dirty and remains load-consistent. -/
theorem checkpoint_crash_consistency (d : DocState) (st : StoreState)
    (hsync : loadState st = d.crdt)
    (hseq : ∀ u ∈ st.updates, u.1 ≤ d.seq)
    (hdirty : d.dirty = true) :
    (checkpoint false d st = (d, st) ∧
      (checkpoint false d st).1.dirty = true) ∧
    (loadState st = d.crdt) ∧
    (∀ kept, List.Sublist kept st.updates →
      loadState ⟨some ⟨d.seq, d.crdt⟩, kept⟩ = d.crdt) ∧
    ((checkpoint true d st).1.dirty = false ∧
      loadState (checkpoint true d st).2 = d.crdt) := by
  have hfail : checkpoint false d st = (d, st) := by
    simp [checkpoint, hdirty]
  have hkept : ∀ kept, List.Sublist kept st.updates →
      loadState ⟨some ⟨d.seq, d.crdt⟩, kept⟩ = d.crdt := by
    intro kept hsub
    exact loadState_high_baseline d.seq d.crdt kept
      (fun u hu => hseq u (hsub.subset hu))
  refine ⟨⟨hfail, by rw [hfail]; exact hdirty⟩, hsync, hkept, ?_, ?_⟩
  · simp [checkpoint, hdirty]
  · have h2 : (checkpoint true d st).2 =
        ⟨some ⟨d.seq, d.crdt⟩, st.updates.filter (fun u => d.seq < u.1)⟩ := by
      simp [checkpoint, hdirty]
    rw [h2]
    exact hkept _ (List.filter_sublist _)

/-- C3 witness: a concrete dirty document over a store holding an old
snapshot and one newer log entry satisfies the invariant, and after the
new snapshot is written with the deletion fully applied, `load` still
reconstructs the live state. -/
theorem checkpoint_crash_consistency_witness :
    loadState ⟨some ⟨2, ({5, 7} : Finset Nat)⟩, []⟩ = ({5, 7} : Finset Nat) :=
  ((checkpoint_crash_consistency ⟨{5, 7}, 2, true⟩ ⟨some ⟨1, {5}⟩, [(2, 7)]⟩
      (by decide) (by decide) rfl).2.2.1) [] (List.nil_sublist _)

/-- C6: the `Dump` arm loads the document through the load path
of the persistence engine — a `SyncKv` constructed over the built store for the
requested doc id, replayed by `load_doc` into a transaction over a
freshly constructed `Doc` — and hands the loaded transaction to `dump`
for rendering, whose result becomes the result of the command. -/
theorem dump_loads_through_engine (ext : Externals) (o : DumpOpts)
    (store : Store) (kv : SyncKv) (txn : YTxn)
    (hstore : get_store_from_opts ext.urlParse o.store_path = Except.ok store)
    (hkv : ext.syncKvNew store o.doc_id = Except.ok kv)
    (hload : ext.loadDoc kv DOC_NAME Doc.newTxn = Except.ok txn) :
    mainDump ext o =
      (ext.dumpTxn txn,
       [Event.syncKvConstructed store o.doc_id, Event.docLoaded txn,
        Event.dumped txn]) := by
  simp only [mainDump, hstore, hkv, hload]
  rfl

/-- C6 witness: dumping a document from a filesystem store goes through
`SyncKv` construction, `load_doc` on a fresh doc, and `dump`. -/
theorem dump_loads_through_engine_witness :
    mainDump extOk ⟨("data"), ("mydoc")⟩ =
      (Except.ok (),
       [Event.syncKvConstructed (Store.fileSystem ("data")) ("mydoc"),
        Event.docLoaded Doc.newTxn, Event.dumped Doc.newTxn]) :=
  dump_loads_through_engine extOk ⟨("data"), ("mydoc")⟩
    (Store.fileSystem ("data")) ⟨0⟩ Doc.newTxn rfl rfl rfl

/-- C7: when `load_doc` fails, the `Dump` arm returns the failure as an
`Error loading doc` error value from `main` — the embedding is a total
function, so the failure is an `Except.error` result, not a panic — and
nothing is rendered. -/
theorem dump_load_error_surfaced (ext : Externals) (o : DumpOpts)
    (store : Store) (kv : SyncKv) (e : String)
    (hstore : get_store_from_opts ext.urlParse o.store_path = Except.ok store)
    (hkv : ext.syncKvNew store o.doc_id = Except.ok kv)
    (hload : ext.loadDoc kv DOC_NAME Doc.newTxn = Except.error e) :
    mainDump ext o =
      (Except.error (("Error loading doc: ") ++ e),
       [Event.syncKvConstructed store o.doc_id]) := by
  simp only [mainDump, hstore, hkv, hload]

/-- C7 witness: a store whose persisted state cannot be decoded makes
`Dump` return the `Error loading doc` error. -/
theorem dump_load_error_surfaced_witness :
    mainDump extLoadFail ⟨("data"), ("mydoc")⟩ =
      (Except.error (("Error loading doc: ") ++ ("corrupt update record")),
       [Event.syncKvConstructed (Store.fileSystem ("data")) ("mydoc")]) :=
  dump_load_error_surfaced extLoadFail ⟨("data"), ("mydoc")⟩
    (Store.fileSystem ("data")) ⟨0⟩ ("corrupt update record") rfl rfl rfl

/-- C8: `GenAuth` prints exactly the generated key material: with
`--json`, a JSON object whose fields are `private_key` and
`server_token`; without, a fixed instruction template interpolating only
the private key and the server token (so no document-scoped token or
other secret can appear), and the template does surface both values. -/
theorem genauth_prints_key_and_server_token (ext : Externals)
    (a : Authenticator) (h : ext.genKey = Except.ok a) :
    mainGenAuth ext true =
      (Except.ok (), [Event.printedJson
        [(("private_key"), a.privateKey), (("server_token"), a.serverToken)]]) ∧
    mainGenAuth ext false =
      (Except.ok (), [Event.printedLines
        (genAuthTextTemplate a.privateKey a.serverToken)]) ∧
    (("   --auth ") ++ a.privateKey) ∈
      genAuthTextTemplate a.privateKey a.serverToken ∧
    (("   ") ++ a.serverToken) ∈
      genAuthTextTemplate a.privateKey a.serverToken := by
  refine ⟨?_, ?_, ?_, ?_⟩
  · simp only [mainGenAuth, h, genAuthJsonFields]
    rfl
  · simp only [mainGenAuth, h]
    rfl
  · simp [genAuthTextTemplate]
  · simp [genAuthTextTemplate]

/-- C8 witness: a concrete key generation prints the JSON object with
exactly the two fields. -/
theorem genauth_prints_key_and_server_token_witness :
    mainGenAuth extOk true =
      (Except.ok (), [Event.printedJson
        [(("private_key"), ("sample-private-key")),
         (("server_token"), ("sample-server-token"))]]) :=
  (genauth_prints_key_and_server_token extOk sampleAuth rfl).1

/-- C9: for a location starting with `s3://` whose URL parse succeeds
with scheme `s3` and some host, the S3 store is constructed with the
region fixed to `UsEast1` whatever the locator says, the bucket equal to
the URL host, and the key prefix equal to the URL path with leading
slashes stripped (empty when the URL has no path). -/
theorem s3_locator_fixed_region (urlParse : String → Except String Url)
    (store_path : String) (u : Url) (bucket : String)
    (hpre : strStartsWith store_path ("s3://") = true)
    (hparse : urlParse store_path = Except.ok u)
    (hscheme : u.scheme = ("s3"))
    (hhost : u.host = some bucket) :
    get_store_from_opts urlParse store_path =
      Except.ok (Store.s3 Region.usEast1 bucket (trimStartSlashes u.path)) := by
  simp [get_store_from_opts, hpre, hparse, hscheme, hhost, S3Store.new]

/-- C9 witness: `s3://mybucket/some/base` yields the S3 store with
region `UsEast1`, bucket `mybucket` and prefix `some/base`. -/
theorem s3_locator_fixed_region_witness :
    get_store_from_opts urlParseSample ("s3://mybucket/some/base") =
      Except.ok (Store.s3 Region.usEast1 ("mybucket")
        (trimStartSlashes ("/some/base"))) :=
  s3_locator_fixed_region urlParseSample ("s3://mybucket/some/base")
    ⟨("s3"), some ("mybucket"), ("/some/base")⟩ ("mybucket")
    (by decide) rfl rfl rfl

/-- Helper: if the trace of a `Serve` invocation records a served
address, it is exactly the socket address built from `--host` (loopback
`127.0.0.1` when absent) and `--port`. -/
theorem mainServe_served_inv (ext : Externals) (o : ServeOpts)
    (a : SocketAddr) (h : Event.served a ∈ (mainServe ext o).2) :
    a = ⟨o.host.getD (IpAddr.v4 127 0 0 1), o.port⟩ := by
  cases ho : o.auth with
  | none =>
    cases hs : get_store_from_opts ext.urlParse o.store_path with
    | error e =>
      simp only [mainServe, ho, hs] at h
      simp at h
    | ok store =>
      cases hn : ext.serverNew ⟨store, Duration.from_secs o.checkpoint_freq_seconds,
          none, o.use_https⟩ with
      | error e =>
        simp only [mainServe, ho, hs, hn] at h
        simp at h
      | ok u =>
        simp only [mainServe, ho, hs, hn] at h
        simp at h
        exact h
  | some k =>
    cases ha : ext.authNew k with
    | error e =>
      simp only [mainServe, ho, ha] at h
      simp at h
    | ok a2 =>
      cases hs : get_store_from_opts ext.urlParse o.store_path with
      | error e =>
        simp only [mainServe, ho, ha, hs] at h
        simp at h
      | ok store =>
        cases hn : ext.serverNew ⟨store, Duration.from_secs o.checkpoint_freq_seconds,
            some a2, o.use_https⟩ with
        | error e =>
          simp only [mainServe, ho, ha, hs, hn] at h
          simp at h
        | ok u =>
          simp only [mainServe, ho, ha, hs, hn] at h
          simp at h
          exact h

/-- C10: any address a `Serve` invocation serves on is exactly
`SocketAddr(host-or-127.0.0.1, port)`; with `--host` omitted the host
defaults to loopback `127.0.0.1`, and with `--port` omitted the port
defaults to 8080. -/
theorem bind_address_defaults (ext : Externals) (r : RawServeOpts) :
    (∀ a, Event.served a ∈ (mainServe ext (resolveServeOpts r)).2 →
      a = ⟨(resolveServeOpts r).host.getD (IpAddr.v4 127 0 0 1),
           (resolveServeOpts r).port⟩) ∧
    (r.host = none →
      (resolveServeOpts r).host.getD (IpAddr.v4 127 0 0 1) =
        IpAddr.v4 127 0 0 1) ∧
    (r.port = none → (resolveServeOpts r).port = 8080) := by
  refine ⟨fun a h => mainServe_served_inv ext (resolveServeOpts r) a h, ?_, ?_⟩
  · intro hh
    simp [resolveServeOpts, hh]
  · intro hp
    simp [resolveServeOpts, hp]

/-- C10 witness: with `--host` and `--port` omitted, a run that reaches
serving serves on `127.0.0.1:8080`. -/
theorem bind_address_defaults_witness :
    (⟨IpAddr.v4 127 0 0 1, 8080⟩ : SocketAddr) =
      ⟨(resolveServeOpts ⟨("data"), none, none, none, none, false⟩).host.getD
          (IpAddr.v4 127 0 0 1),
        (resolveServeOpts ⟨("data"), none, none, none, none, false⟩).port⟩ ∧
    (resolveServeOpts ⟨("data"), none, none, none, none, false⟩).port = 8080 :=
  ⟨(bind_address_defaults extOk ⟨("data"), none, none, none, none, false⟩).1
      ⟨IpAddr.v4 127 0 0 1, 8080⟩ (by decide),
   (bind_address_defaults extOk ⟨("data"), none, none, none, none, false⟩).2.2 rfl⟩

end YSweet
